import Mathlib

/-!
# Verification of the snapshotplot capture and site-build pipeline

Shallow embedding of the snapshotplot repository (Python) in Lean 4.

* `timestamp.py` — the process-wide timestamp source (`generate_timestamp`,
  `get_current_timestamp`, `reset_timestamp`), modelled as explicit state
  passing over `TsState`, with the system clock modelled as a finite list of
  candidate token readings (the `while True` retry loop becomes structural
  recursion over that list).
* `file_manager.py` — pure path construction (`create_output_directory`,
  `generate_filename`, `get_file_paths`).
* `html_writer.py` — HTML page assembly (`generate_html`), with the static
  template text carried as string constants and the Jinja conditionals made
  explicit.
* `snapshot.py` — the capture pipeline (`SnapshotContext._create_snapshot`
  and the sub-steps `_save_source_code`, `_save_plot`,
  `_create_html_documentation`), modelled as functions emitting a trace of
  filesystem operations; each `try/except warnings.warn` block becomes an
  explicit catch combinator.  I/O success/failure and the matplotlib
  "has active figure" query are environment parameters.
* `site_generator.py` — the static site builder (`SiteGenerator`), modelled
  over an explicit in-memory directory tree.  The external YAML and markdown
  collaborators are given small executable models.

All functions are computable and evaluable on concrete inputs.
-/
namespace Snapshotplot

/-! ## Timestamp source (`timestamp.py`) -/
/-- The module-level mutable state of `timestamp.py`:
`_GLOBAL_TIMESTAMP` and `_LAST_EMITTED_TIMESTAMP`.
(`_GLOBAL_DATETIME` tracks `_GLOBAL_TIMESTAMP` and carries no extra
claim-relevant information, so it is not modelled separately.) -/
structure TsState where
  globalTs : Option String
  lastEmitted : Option String
  deriving Repr, DecidableEq

/-- `generate_timestamp`: loop reading clock candidates until one differs
from `_LAST_EMITTED_TIMESTAMP`; then store it in both globals and return it.
The clock is a finite list of successive readings; `none` means the trace of
readings was exhausted before a distinct candidate appeared (the real loop
would keep sleeping and retrying). -/
def generate_timestamp : TsState → List String → Option (String × TsState × List String)
  | _, [] => none
  | s, c :: rest =>
    if s.lastEmitted = some c then
      generate_timestamp s rest
    else
      some (c, { globalTs := some c, lastEmitted := some c }, rest)

/-- `get_current_timestamp` (aliased as `get_timestamp`): return the cached
global token if present, else generate a fresh one. -/
def get_current_timestamp (s : TsState) (clock : List String) :
    Option (String × TsState × List String) :=
  match s.globalTs with
  | some t => some (t, s, clock)
  | none => generate_timestamp s clock

/-- `reset_timestamp`: clears `_GLOBAL_TIMESTAMP` (and `_GLOBAL_DATETIME`)
but deliberately leaves `_LAST_EMITTED_TIMESTAMP` untouched. -/
def reset_timestamp (s : TsState) : TsState :=
  { s with globalTs := none }

/-! ## Python string primitives

The repository manipulates Python `str` values; these helpers model the used
`str` methods over the character list of a Lean `String`, so that every
definition evaluates by kernel reduction. -/
/-- Python `s.startswith(t)`. -/
def pyStartsWith (s t : String) : Bool := List.isPrefixOf t.data s.data

/-- Python `s.endswith(t)`. -/
def pyEndsWith (s t : String) : Bool := List.isSuffixOf t.data s.data

/-- Python `s[:-n]` for a string known to be at least `n` long
(used for stripping the `.py` extension). -/
def pyDropRight (s : String) (n : Nat) : String :=
  String.mk (s.data.take (s.data.length - n))

/-- Scanner for `str.split(sep)`: walk the text left to right, breaking at
every non-overlapping occurrence of `sep`.  `fuel` bounds the recursion and
is always instantiated with more than the text length. -/
def splitOnListAux (sep : List Char) : Nat → List Char → List Char → List (List Char)
  | 0, l, acc => [acc.reverse ++ l]
  | _ + 1, [], acc => [acc.reverse]
  | fuel + 1, c :: rest, acc =>
    if List.isPrefixOf sep (c :: rest) then
      acc.reverse :: splitOnListAux sep fuel (List.drop sep.length (c :: rest)) []
    else
      splitOnListAux sep fuel rest (c :: acc)

/-- Python `s.split(sep)` (all occurrences, `sep` nonempty). -/
def pySplitAll (s sep : String) : List String :=
  (splitOnListAux sep.data (s.data.length + 1) s.data []).map String.mk

/-- Python `sep.join(parts)`. -/
def pyJoin (sep : String) : List String → String
  | [] => ""
  | [x] => x
  | x :: xs => x ++ sep ++ pyJoin sep xs

/-- Python `s.split(sep, 2)`: at most two splits, the tail keeps its
separators.  Equivalent to a full split followed by re-joining the tail. -/
def pySplit3 (s sep : String) : List String :=
  let all := pySplitAll s sep
  if all.length ≤ 3 then all
  else all.take 2 ++ [pyJoin sep (all.drop 2)]

/-- Scanner for `str.replace(old, new)` (all non-overlapping occurrences). -/
def replaceListAux (old new : List Char) : Nat → List Char → List Char
  | 0, l => l
  | _ + 1, [] => []
  | fuel + 1, c :: rest =>
    if List.isPrefixOf old (c :: rest) then
      new ++ replaceListAux old new fuel (List.drop old.length (c :: rest))
    else
      c :: replaceListAux old new fuel rest

/-- Python `s.replace(old, new)` (`old` nonempty). -/
def pyReplace (s old new : String) : String :=
  String.mk (replaceListAux old.data new.data (s.data.length + 1) s.data)

/-- Python `s.strip()`: drop whitespace from both ends. -/
def pyStrip (s : String) : String :=
  String.mk (((s.data.dropWhile Char.isWhitespace).reverse.dropWhile
    Char.isWhitespace).reverse)

/-- One step of Python `str.title()`: a cased character following a non-cased
character is uppercased, any other cased character is lowercased (restricted
to ASCII letters, the only cased characters appearing in the repository's
directory names). -/
def pyTitleAux : Bool → List Char → List Char
  | _, [] => []
  | prevCased, c :: rest =>
    let cased := c.isAlpha
    let c' := if cased then (if prevCased then c.toLower else c.toUpper) else c
    c' :: pyTitleAux cased rest

/-- Python `s.title()`. -/
def pyTitle (s : String) : String := String.mk (pyTitleAux false s.data)

/-- POSIX `os.path.basename`: the part after the last `/`. -/
def os_path_basename (p : String) : String :=
  String.mk ((p.data.reverse.takeWhile (· ≠ '/')).reverse)

/-! ## File manager (`file_manager.py`)

Paths are modelled as POSIX-style strings; `Path(a) / b` is `a ++ "/" ++ b`. -/
/-- `create_output_directory`: strip a trailing `.py` from the caller's file
name, prefix with `snapshot_`, and join under the base directory.  (The
`mkdir` side effect creates the directory; the returned path is modelled.) -/
def create_output_directory (base_dir filename : String) : String :=
  let filename := if pyEndsWith filename ".py" then pyDropRight filename 3 else filename
  base_dir ++ "/" ++ ("snapshot_" ++ filename)

/-- `generate_filename`: timestamp-first file names per artifact kind. -/
def generate_filename (extension timestamp : String) : String :=
  if extension = "py" then timestamp ++ "_code.py"
  else if extension = "png" then timestamp ++ "_plot.png"
  else if extension = "html" then timestamp ++ "_snapshot.html"
  else timestamp ++ "." ++ extension

/-- The `{'code': ..., 'plot': ..., 'html': ...}` dict of `get_file_paths`. -/
structure FilePaths where
  code : String
  plot : String
  html : String
  deriving Repr, DecidableEq

/-- `get_file_paths`: the three artifact paths of one capture. -/
def get_file_paths (output_dir _filename timestamp : String) : FilePaths :=
  { code := output_dir ++ "/" ++ generate_filename "py" timestamp
    plot := output_dir ++ "/" ++ generate_filename "png" timestamp
    html := output_dir ++ "/" ++ generate_filename "html" timestamp }

/-! ## Utilities (`utils.py`) -/
/-- `format_timestamp_for_display`: pure slicing of the
`YYYYMMDD_HHMMSS_mmm` token into `YYYY-MM-DD HH:MM:SS UTC`
(Python slices never raise, so the `except` branch is unreachable for
string input). -/
def format_timestamp_for_display (timestamp : String) : String :=
  let cs := timestamp.data
  let datePart := cs.take 8
  let timePart := (cs.drop 9).take 6
  let year := String.mk (datePart.take 4)
  let month := String.mk ((datePart.drop 4).take 2)
  let day := String.mk ((datePart.drop 6).take 2)
  let hour := String.mk (timePart.take 2)
  let minute := String.mk ((timePart.drop 2).take 2)
  let second := String.mk ((timePart.drop 4).take 2)
  year ++ "-" ++ month ++ "-" ++ day ++ " " ++ hour ++ ":" ++ minute ++ ":" ++
    second ++ " UTC"

/-! ## HTML writer (`html_writer.py`)

`HTML_TEMPLATE` is rendered by `jinja2.Template` with `autoescape` off, so a
render is plain string interpolation.  The static `<style>` block of the
template carries no claim-relevant content and is abridged to a marker
constant; every dynamic interpolation and both Jinja conditionals
(`{%if author%}`, `{%if notes%}`, `{%if plot_filename%}`) are modelled
exactly, including the literal no-plot message. -/
/-- Python `a or b` for an optional string default: `None` and `""` are both
falsy. -/
def pyOrS (a : Option String) (b : String) : String :=
  match a with
  | some s => if s = "" then b else s
  | none => b

/-- Jinja truthiness of an optional string context variable. -/
def jinjaTruthy (a : Option String) : Bool :=
  match a with
  | some s => s ≠ ""
  | none => false

/-- The `metadata` dict handed to `generate_html` (built in
`SnapshotContext._create_html_documentation`; `generate_html` reads it with
`.get` and defaults). -/
structure HtmlMeta where
  function_name : Option String
  filename : Option String
  date : Option String
  deriving Repr, DecidableEq

/-- Model of the external Pygments collaborator used by `highlight_code`:
the claims never inspect the highlighted markup, only that the source text is
embedded, which both the real `highlight` output and the `except` fallback
`<pre><code>...</code></pre>` do. -/
def highlight_code (code : String) : String :=
  "<pre><code>" ++ code ++ "</code></pre>"

/-- The page head of `HTML_TEMPLATE` up to the header block (static
stylesheet abridged). -/
def htmlHead (title : String) : String :=
  "<!DOCTYPE html>\n<html lang=\"en\">\n<head>\n<meta charset=\"UTF-8\">\n" ++
  "<title>" ++ title ++ "</title>\n<style>(dark-mode stylesheet)</style>\n" ++
  "</head>\n<body>\n<div class=\"container\">\n"

/-- The header block: `h1` title plus File/Function/Date metadata items and
the `{%if author%}` conditional item. -/
def htmlHeader (title filename function_name date : String)
    (author : Option String) : String :=
  "<div class=\"header\">\n<h1>" ++ title ++ "</h1>\n<div class=\"metadata\">\n" ++
  "<div class=\"metadata-item\"><strong>File:</strong> " ++ filename ++ "</div>\n" ++
  "<div class=\"metadata-item\"><strong>Function:</strong> " ++ function_name ++ "</div>\n" ++
  "<div class=\"metadata-item\"><strong>Date:</strong> " ++ date ++ "</div>\n" ++
  (if jinjaTruthy author then
    "<div class=\"metadata-item\"><strong>Author:</strong> " ++ author.getD "" ++ "</div>\n"
  else "") ++
  "</div>\n</div>\n"

/-- The source-code column, with the `{%if notes%}` conditional block. -/
def htmlCodeSection (filename function_name highlighted_code : String)
    (notes : Option String) : String :=
  "<div class=\"section\">\n<h2>Source Code</h2>\n<div class=\"code-block\">\n" ++
  "<div class=\"code-header\">" ++ filename ++ " (" ++ function_name ++ ")</div>\n" ++
  "<div class=\"code-content\">" ++ highlighted_code ++ "</div>\n</div>\n" ++
  (if jinjaTruthy notes then
    "<div class=\"notes\">\n<h3>Notes</h3>\n<p>" ++ notes.getD "" ++ "</p>\n</div>\n"
  else "") ++
  "</div>\n"

/-- The literal no-plot message of `HTML_TEMPLATE`. -/
def noPlotMessage : String := "No plot was generated for this snapshot."

/-- Opening tag of the no-plot placeholder `div`. -/
def noPlotDivOpen : String := "<div style=\"color:#888; font-style:italic;\">"

/-- The `{%if plot_filename%}` conditional of the plot column: an `img` tag
when a plot file name is present, the explicit no-plot statement otherwise. -/
def htmlPlotBody (plot_filename : String) : String :=
  if plot_filename ≠ "" then
    "<img src=\"" ++ plot_filename ++ "\" alt=\"Generated plot\" class=\"plot-image\">"
  else
    noPlotDivOpen ++ noPlotMessage ++ "</div>"

/-- The page tail: footer with the date, closing tags. -/
def htmlFooter (date : String) : String :=
  "</div>\n</div>\n</div>\n<div class=\"footer\">\n<p>Generated by SnapshotPlot on " ++
  date ++ "</p>\n</div>\n</div>\n</body>\n</html>\n"

/-- Everything of a rendered `HTML_TEMPLATE` page before the
`{%if plot_filename%}` conditional. -/
def htmlBeforePlotBody (titleV filenameV functionV dateV : String)
    (author notes : Option String) (code : String) : String :=
  htmlHead titleV ++
  htmlHeader titleV filenameV functionV dateV author ++
  "<div class=\"content\">\n" ++
  htmlCodeSection filenameV functionV (highlight_code code) notes ++
  "<div class=\"section\">\n<h2>Generated Plot</h2>\n<div class=\"plot-section\">\n"

/-- `generate_html`: fill the template variables (with the `.get` defaults of
the source) and render `HTML_TEMPLATE`. -/
def generate_html (code plot_filename : String) (metadata : HtmlMeta)
    (title author notes : Option String) : String :=
  let titleV := pyOrS title
    ("Snapshot: " ++ metadata.function_name.getD "Unknown Function")
  let filenameV := metadata.filename.getD "unknown_file.py"
  let functionV := metadata.function_name.getD "unknown_function"
  let dateV := metadata.date.getD "Unknown Date"
  htmlBeforePlotBody titleV filenameV functionV dateV author notes code ++
  htmlPlotBody plot_filename ++ "\n" ++
  htmlFooter dateV

/-! ## Capture pipeline (`snapshot.py`)

`SnapshotContext._create_snapshot` and its sub-steps are modelled as
functions emitting a trace of filesystem operations.  Success or failure of
each raw I/O step, and the matplotlib "active figure with axes" query, are
environment parameters; every `try/except warnings.warn` block of the source
becomes an explicit `catch_warn`.  The site-generation and git options
(`site`, `collection`, `auto_commit`, `auto_build`, `auto_deploy`) keep
their default disabled values, under which `_create_snapshot` skips those
branches entirely. -/
/-- An observable filesystem effect of a capture: a successful file write or
an emitted `warnings.warn`. -/
inductive FsOp where
  | write (path content : String)
  | warn (msg : String)
  deriving Repr, DecidableEq

/-- The capture environment: outcome of each raw I/O step and of
`utils.has_active_figure()`. -/
structure CaptureEnv where
  hasActiveFigure : Bool
  codeWriteOk : Bool
  plotSaveOk : Bool
  htmlWriteOk : Bool
  deriving Repr, DecidableEq

/-- A `try: ... except Exception as e: warnings.warn(prefixMsg + e)` block
around a raw I/O action. -/
def catch_warn (prefixMsg : String) : Except String (List FsOp) → List FsOp
  | .ok ops => ops
  | .error e => [.warn (prefixMsg ++ e)]

/-- The `calling_info` dict fields used by the capture
(`code_capture.get_calling_info`). -/
structure CallingInfo where
  function_name : String
  filename : String
  source_code : String
  deriving Repr, DecidableEq

/-- Opaque stand-in for the bytes `fig.savefig` writes. -/
def pngBytes : String := "<binary png data>"

/-- `SnapshotContext._save_source_code`: write the captured source to the
code file; any failure is warned about. -/
def save_source_code (env : CaptureEnv) (paths : FilePaths)
    (source_code : String) : List FsOp :=
  catch_warn "Failed to save source code: "
    (if env.codeWriteOk then .ok [.write paths.code source_code]
     else .error ("cannot write " ++ paths.code))

/-- `utils.save_current_plot`: `fig.savefig` inside its own
`try/except warnings.warn` — a backend failure is warned about and swallowed
here, so the caller cannot observe it. -/
def save_current_plot (ok : Bool) (path : String) : List FsOp :=
  if ok then [.write path pngBytes]
  else [.warn ("Failed to save plot to " ++ path ++ ": backend error")]

/-- `SnapshotContext._save_plot`: no active figure means no image output, no
error and `False`; otherwise `save_current_plot` runs and — because it
swallows its own failures — `_save_plot` returns `True` whenever a figure is
active, even if the image write failed (its own `except` branch is
unreachable). -/
def save_plot (env : CaptureEnv) (paths : FilePaths) : Bool × List FsOp :=
  if !env.hasActiveFigure then (false, [])
  else (true, save_current_plot env.plotSaveOk paths.plot)

/-- `SnapshotContext._create_html_documentation` followed by
`html_writer.create_html_snapshot`: always build the page (plot path empty
when no plot was saved, so its basename is empty and the template takes the
no-plot branch); a write failure is warned about. -/
def create_html_documentation (env : CaptureEnv) (ci : CallingInfo)
    (timestamp : String) (paths : FilePaths)
    (title author notes : Option String) (plot_saved : Bool) : List FsOp :=
  catch_warn "Failed to create HTML documentation: "
    (let metadata : HtmlMeta :=
      { function_name := some ci.function_name
        filename := some ci.filename
        date := some (format_timestamp_for_display timestamp) }
     let plot_path := if plot_saved then paths.plot else ""
     let plot_filename := os_path_basename plot_path
     let html := generate_html ci.source_code plot_filename metadata title author notes
     if env.htmlWriteOk then .ok [.write paths.html html]
     else .error ("Failed to save HTML file to " ++ paths.html))

/-- `SnapshotContext._create_snapshot` (default configuration: no site, no
git automation): save the code, save the plot if available, always create
the HTML page. -/
def create_snapshot (env : CaptureEnv) (ci : CallingInfo) (timestamp : String)
    (paths : FilePaths) (title author notes : Option String) : List FsOp :=
  let codeOps := save_source_code env paths ci.source_code
  let plotR := save_plot env paths
  let htmlOps := create_html_documentation env ci timestamp paths title author notes plotR.1
  codeOps ++ plotR.2 ++ htmlOps

/-- `SnapshotContext.__exit__`: run `_create_snapshot` inside
`try/except warnings.warn` (each sub-step already catches, so the outer
catch never fires), ignore the exception info, and implicitly return
`None` — i.e. never suppress the caller's exception. -/
def snapshot_exit_fn {ε : Type} (env : CaptureEnv) (ci : CallingInfo) (timestamp : String)
    (paths : FilePaths) (title author notes : Option String) :
    Option ε → Bool × List FsOp :=
  fun _exc =>
    (false,
     catch_warn "Snapshot creation failed: "
       (.ok (create_snapshot env ci timestamp paths title author notes)))

/-- Python `with` statement semantics over an already-entered context: run
the body; on an exception call `__exit__` with it and re-raise unless
`__exit__` returns truthy; on normal completion call `__exit__` with no
exception.  `Except.ok none` is the value of a `with` statement whose body's
exception was suppressed. -/
def pyWith {ε α : Type} (body : Except ε α)
    (exitFn : Option ε → Bool × List FsOp) : Except ε (Option α) × List FsOp :=
  match body with
  | .ok v => (.ok (some v), (exitFn none).2)
  | .error e =>
    let r := exitFn (some e)
    (if r.1 then .ok none else .error e, r.2)

/-- `SnapshotDecorator.__call__`'s `wrapper`: run the wrapped function inside
a `SnapshotContext` and return its result. -/
def snapshot_wrapper (ε : Type) {α β : Type} (env : CaptureEnv) (ci : CallingInfo)
    (timestamp : String) (paths : FilePaths)
    (title author notes : Option String) (f : α → β) (x : α) :
    Except ε (Option β) × List FsOp :=
  pyWith (.ok (f x)) (snapshot_exit_fn env ci timestamp paths title author notes)

/-- `with SnapshotContext(...):` around a user body with outcome `body`. -/
def with_snapshot {ε α : Type} (env : CaptureEnv) (ci : CallingInfo)
    (timestamp : String) (paths : FilePaths)
    (title author notes : Option String) (body : Except ε α) :
    Except ε (Option α) × List FsOp :=
  pyWith body (snapshot_exit_fn env ci timestamp paths title author notes)

/-- The HTML page content a capture writes when no plot was saved (what
`_create_html_documentation` hands to `create_html_snapshot` with an empty
plot path). -/
def noFigureHtml (ci : CallingInfo) (timestamp : String)
    (title author notes : Option String) : String :=
  generate_html ci.source_code ""
    { function_name := some ci.function_name
      filename := some ci.filename
      date := some (format_timestamp_for_display timestamp) } title author notes

/-- The HTML page content a capture writes when the plot was saved to
`paths.plot` (the template receives the basename of that path). -/
def figureHtml (ci : CallingInfo) (timestamp : String) (paths : FilePaths)
    (title author notes : Option String) : String :=
  generate_html ci.source_code (os_path_basename paths.plot)
    { function_name := some ci.function_name
      filename := some ci.filename
      date := some (format_timestamp_for_display timestamp) } title author notes

/-! ## Site generator (`site_generator.py`)

The builder walks an on-disk site tree; the tree is modelled explicitly.
`yaml.safe_load`, `markdown.markdown` and `datetime.strptime` are external
collaborators with small executable models (documented at each one). -/
/-- A value of a parsed metadata mapping (the YAML front matter / config
dicts hold strings, lists of strings, booleans and `None` here). -/
inductive MVal where
  | str (v : String)
  | list (v : List String)
  | bool (v : Bool)
  | nullv
  deriving Repr, DecidableEq

/-- A Python dict with string keys, in insertion order. -/
abbrev MMap := List (String × MVal)

/-- Python dict lookup `m.get(k)`. -/
def mmapGet (m : MMap) (k : String) : Option MVal :=
  (m.find? (fun kv => kv.1 = k)).map (fun kv => kv.2)

/-- Python dict assignment `m[k] = v`: replace in place, else append. -/
def mmapSet (m : MMap) (k : String) (v : MVal) : MMap :=
  match m with
  | [] => [(k, v)]
  | (k', v') :: rest => if k' = k then (k, v) :: rest else (k', v') :: mmapSet rest k v

/-- Python `s.split(sep, 1)`. -/
def pySplit2 (s sep : String) : List String :=
  let all := pySplitAll s sep
  if all.length ≤ 2 then all else all.take 1 ++ [pyJoin sep (all.drop 1)]

/-- Model of the external YAML collaborator (`yaml.safe_load`) on the flat
`key: value` documents this repository reads and writes: each non-blank line
must contain a `:`; the key and value are the stripped halves.  A document
of only blank lines loads as `none` (YAML `null`, Python `None`); a non-blank
line without `:` is a parse error (`yaml.scanner.ScannerError`).  Documents
whose top level is not a mapping also abort their call sites and are folded
into the error case. -/
def yaml_safe_load_model (text : String) : Except String (Option MMap) :=
  let step := fun (acc : Except String MMap) (line : String) =>
    match acc with
    | .error e => .error e
    | .ok m =>
      if pyStrip line = "" then .ok m
      else
        match pySplit2 line ":" with
        | [_] => .error ("could not parse yaml line: " ++ line)
        | [k, v] => .ok (mmapSet m (pyStrip k) (MVal.str (pyStrip v)))
        | _ => .error ("could not parse yaml line: " ++ line)
  match (pySplitAll text "\n").foldl step (.ok []) with
  | .error e => .error e
  | .ok [] => .ok none
  | .ok m => .ok (some m)

/-- Model of the external markdown collaborator (`markdown.markdown`):
an empty body renders empty, a nonempty one is wrapped in a paragraph
(no claim inspects the markup itself). -/
def markdown_markdown_model (s : String) : String :=
  if s = "" then "" else "<p>" ++ s ++ "</p>"

/-- A parsed calendar timestamp (what `datetime.strptime` returns). -/
structure DateTimeV where
  year : Nat
  month : Nat
  day : Nat
  hour : Nat
  minute : Nat
  second : Nat
  deriving Repr, DecidableEq

/-- All-digit parse of a character run. -/
def parseDigits (cs : List Char) : Option Nat :=
  if cs ≠ [] ∧ cs.all Char.isDigit then
    some (cs.foldl (fun n c => n * 10 + (c.toNat - 48)) 0)
  else none

/-- Gregorian leap year (as `datetime` uses). -/
def isLeap (y : Nat) : Bool := (y % 4 = 0 && y % 100 ≠ 0) || y % 400 = 0

/-- Days in a month (as `datetime` validates). -/
def daysInMonth (y m : Nat) : Nat :=
  if m = 2 then (if isLeap y then 29 else 28)
  else if m = 4 ∨ m = 6 ∨ m = 9 ∨ m = 11 then 30
  else 31

/-- Model of the external `datetime.strptime(date + "_" + time,
"%Y%m%d_%H%M%S")` collaborator, on the canonical 8-digit date / 6-digit time
tokens the capture writes (the only shapes the builder relies on; other digit
shapes the real parser may still accept fall back to `now` in the caller
either way, which the claims treat identically). -/
def strptime_Ymd_HMS (ds ts : String) : Option DateTimeV :=
  if ds.data.length = 8 ∧ ts.data.length = 6 then
    match parseDigits (ds.data.take 4), parseDigits ((ds.data.drop 4).take 2),
        parseDigits (ds.data.drop 6), parseDigits (ts.data.take 2),
        parseDigits ((ts.data.drop 2).take 2), parseDigits (ts.data.drop 4) with
    | some y, some mo, some da, some h, some mi, some se =>
      if 1 ≤ y ∧ y ≤ 9999 ∧ 1 ≤ mo ∧ mo ≤ 12 ∧ 1 ≤ da ∧ da ≤ daysInMonth y mo ∧
          h ≤ 23 ∧ mi ≤ 59 ∧ se ≤ 59 then
        some ⟨y, mo, da, h, mi, se⟩
      else none
    | _, _, _, _, _, _ => none
  else none

/-- Zero-padded two-digit rendering. -/
def pad2 (n : Nat) : String := if n < 10 then "0" ++ toString n else toString n

/-- Zero-padded four-digit rendering. -/
def pad4 (n : Nat) : String :=
  if n < 10 then "000" ++ toString n
  else if n < 100 then "00" ++ toString n
  else if n < 1000 then "0" ++ toString n
  else toString n

/-- `datetime.isoformat()` for a whole-second timestamp. -/
def isoFormat (dt : DateTimeV) : String :=
  pad4 dt.year ++ "-" ++ pad2 dt.month ++ "-" ++ pad2 dt.day ++ "T" ++
  pad2 dt.hour ++ ":" ++ pad2 dt.minute ++ ":" ++ pad2 dt.second

/-! ### The site tree -/
/-- One entry directory inside a collection: its name and its plain files
(name, content). -/
structure PlotDir where
  name : String
  files : List (String × String)
  deriving Repr, DecidableEq

/-- A child of a collection directory, as `collection_dir.iterdir()` sees it:
a plain file (skipped) or an entry subdirectory. -/
inductive EntryChild where
  | fileC (name content : String)
  | dirC (d : PlotDir)
  deriving Repr, DecidableEq

/-- One collection directory. -/
structure Collection where
  name : String
  children : List EntryChild
  deriving Repr, DecidableEq

/-- A child of `siteRoot/collections`, as `collections_dir.iterdir()` sees
it. -/
inductive CollectionsChild where
  | fileC (name content : String)
  | dirC (c : Collection)
  deriving Repr, DecidableEq

/-- The parts of a site root the builder reads: the raw `_config.yml` content
(if the file exists), the children of `collections/` (if that directory
exists), and the template files present in `_layouts`.  Directory enumeration
order is the list order. -/
structure Site where
  configFile : Option String
  collectionsDir : Option (List CollectionsChild)
  layouts : List String
  deriving Repr, DecidableEq

/-! ### Metadata loading -/
/-- The `plot_dir.glob('*.png') + plot_dir.glob('*.jpg')` file list of
`_auto_generate_metadata`. -/
def plotFilesOf (d : PlotDir) : List (String × String) :=
  d.files.filter (fun f => pyEndsWith f.1 ".png") ++
  d.files.filter (fun f => pyEndsWith f.1 ".jpg")

/-- The `plot_dir.glob('*.py') + plot_dir.glob('*.ipynb')` file list of
`_auto_generate_metadata`. -/
def codeFilesOf (d : PlotDir) : List (String × String) :=
  d.files.filter (fun f => pyEndsWith f.1 ".py") ++
  d.files.filter (fun f => pyEndsWith f.1 ".ipynb")

/-- `SiteGenerator._auto_generate_metadata`: no image file means no record;
otherwise derive the title from the directory name (underscores to spaces,
then `str.title()`), parse the date from the first two `_`-separated tokens
(falling back to the current instant `now`), and reference the first image
and code files. -/
def auto_generate_metadata (now : String) (d : PlotDir) : Option MMap :=
  if plotFilesOf d = [] then none
  else
    let parts := pySplitAll d.name "_"
    let date_iso :=
      if 2 ≤ parts.length then
        match strptime_Ymd_HMS (parts.getD 0 "") (parts.getD 1 "") with
        | some dt => isoFormat dt
        | none => now
      else now
    some ([("title", MVal.str (pyTitle (pyReplace d.name "_" " "))),
           ("date", MVal.str date_iso),
           ("plot_image", MVal.str (((plotFilesOf d).headD ("", "")).1)),
           ("code_file",
            match (codeFilesOf d).head? with
            | some cf => MVal.str cf.1
            | none => MVal.nullv),
           ("auto_generated", MVal.bool true)] : MMap)

/-- `SiteGenerator._load_plot_metadata`: missing `index.md` falls back to
auto-generation; present `index.md` must start with `---` and split into at
least three `---`-separated parts, else the entry loads as `None` (skipped);
the middle part is YAML-parsed — a parse failure (or a non-mapping result)
propagates as an exception, there is no `try` around it — and the remainder
is markdown-rendered into the `content` key. -/
def load_plot_metadata (now : String) (d : PlotDir) : Except String (Option MMap) :=
  match d.files.find? (fun f => f.1 = "index.md") with
  | none => .ok (auto_generate_metadata now d)
  | some f =>
    let content := f.2
    if pyStartsWith content "---" then
      let parts := pySplit3 content "---"
      if 3 ≤ parts.length then
        match yaml_safe_load_model (parts.getD 1 "") with
        | .error e => .error e
        | .ok none =>
          .error "TypeError: NoneType object does not support item assignment"
        | .ok (some fm) =>
          .ok (some (mmapSet fm "content"
            (MVal.str (markdown_markdown_model (pyStrip (parts.getD 2 ""))))))
      else .ok none
    else .ok none

/-! ### Enumerating all plots (`SiteGenerator.get_all_plots`) -/
/-- Accumulate the result lists of an effectful enumeration, stopping at the
first error — the observable behaviour of the `for` loops of
`get_all_plots`, whose body can raise from `_load_plot_metadata`. -/
def collectM {α β : Type} (f : α → Except String (List β)) :
    List α → Except String (List β)
  | [] => .ok []
  | a :: as =>
    match f a with
    | .error e => .error e
    | .ok l =>
      match collectM f as with
      | .error e => .error e
      | .ok ls => .ok (l ++ ls)

/-- The inner loop body of `get_all_plots` for one child of a collection
directory: skip plain files and `_`-prefixed directories; load the entry's
metadata (errors propagate), skip falsy results, and tag the record with its
collection name and slug. -/
def gather_entry (now cname : String) (ch : EntryChild) :
    Except String (List MMap) :=
  match ch with
  | .fileC _ _ => .ok []
  | .dirC d =>
    if pyStartsWith d.name "_" then .ok []
    else
      match load_plot_metadata now d with
      | .error e => .error e
      | .ok none => .ok []
      | .ok (some m) =>
        .ok (if m.isEmpty then []
             else [mmapSet (mmapSet m "collection" (MVal.str cname)) "slug"
                    (MVal.str d.name)])

/-- The outer loop body of `get_all_plots` for one child of `collections/`:
skip plain files, enumerate a collection directory's entries. -/
def gather_collection (now : String) (ch : CollectionsChild) :
    Except String (List MMap) :=
  match ch with
  | .fileC _ _ => .ok []
  | .dirC c => collectM (gather_entry now c.name) c.children

/-- The plot list of `get_all_plots` right before its final `.sort` call:
a missing `collections/` directory yields the empty list. -/
def gather_plots (now : String) (site : Site) : Except String (List MMap) :=
  match site.collectionsDir with
  | none => .ok []
  | some children => collectM (gather_collection now) children

/-- The sort key `x.get('date', '')` (the metadata dates are strings in both
pipelines; a non-string value would make the Python sort raise and never
occurs). -/
def plot_date (p : MMap) : String :=
  match mmapGet p "date" with
  | some (MVal.str v) => v
  | _ => ""

/-- `plot['collection']` (always set by `get_all_plots`). -/
def plot_collection (p : MMap) : String :=
  match mmapGet p "collection" with
  | some (MVal.str v) => v
  | _ => ""

/-- `plot['slug']` (always set by `get_all_plots`). -/
def plot_slug (p : MMap) : String :=
  match mmapGet p "slug" with
  | some (MVal.str v) => v
  | _ => ""

/-- Python string `<=`: lexicographic over code points. -/
def charListLe : List Char → List Char → Bool
  | [], _ => true
  | _ :: _, [] => false
  | a :: as, b :: bs =>
    if a.toNat < b.toNat then true
    else if b.toNat < a.toNat then false
    else charListLe as bs

/-- Python `a <= b` on `str`. -/
def pyStrLe (a b : String) : Bool := charListLe a.data b.data

/-- Stable descending insertion: an element goes in front of the first
already-placed element whose date is not larger; since the element being
inserted enumerated earlier than everything already placed, equal dates keep
enumeration order.  `list.sort(key=..., reverse=True)` is exactly the stable
descending sort, and a stable descending sort of a list is unique, so this
realizes it. -/
def insertPlotDesc (x : MMap) : List MMap → List MMap
  | [] => [x]
  | y :: ys =>
    if pyStrLe (plot_date y) (plot_date x) then x :: y :: ys
    else y :: insertPlotDesc x ys

/-- `plots.sort(key=lambda x: x.get('date', ''), reverse=True)`. -/
def sortPlotsByDate : List MMap → List MMap
  | [] => []
  | x :: xs => insertPlotDesc x (sortPlotsByDate xs)

/-- `SiteGenerator.get_all_plots`: enumerate, then sort newest-first. -/
def get_all_plots (now : String) (site : Site) : Except String (List MMap) :=
  match gather_plots now site with
  | .error e => .error e
  | .ok plots => .ok (sortPlotsByDate plots)

/-! ### Configuration and build (`SiteGenerator._load_config`,
`SiteGenerator.build`) -/
/-- `SiteGenerator._load_config` (run by `__init__`): a missing `_config.yml`
returns the empty dict `{}` — no error; an empty document also defaults to
`{}` via `or {}`; a YAML parse failure propagates. -/
def load_config (site : Site) : Except String MMap :=
  match site.configFile with
  | none => .ok []
  | some content =>
    match yaml_safe_load_model content with
    | .error e => .error e
    | .ok none => .ok []
    | .ok (some m) => .ok m

/-- Append a plot to its collection's bucket, keeping first-appearance bucket
order (Python dict insertion order in the `for plot in plots` grouping
loops). -/
def assocAppend (acc : List (String × List MMap)) (c : String) (p : MMap) :
    List (String × List MMap) :=
  match acc with
  | [] => [(c, [p])]
  | (k, v) :: rest =>
    if k = c then (k, v ++ [p]) :: rest else (k, v) :: assocAppend rest c p

/-- The `collections = {}` grouping loop of `_build_index` and
`_build_collections`. -/
def group_by_collection (plots : List MMap) : List (String × List MMap) :=
  plots.foldl (fun acc p => assocAppend acc (plot_collection p) p) []

/-- The bucket of one collection in a grouping (empty when absent). -/
def lookupGroup (groups : List (String × List MMap)) (c : String) : List MMap :=
  match groups.find? (fun kv => kv.1 = c) with
  | some kv => kv.2
  | none => []

/-- The rendering context of the built index page: `_build_index` renders
`default.html` with the site config, `plots[:12]` as the `plots` variable
(the template emits one card per element of it), and the per-collection
grouping. -/
structure IndexPage where
  siteConfig : MMap
  plots : List MMap
  collections : List (String × List MMap)
  deriving Repr, DecidableEq

/-- The claim-relevant output of `SiteGenerator.build`: the index page
context, one gallery page per collection listing that collection's plots
newest-first, and the output path of every detail page. -/
structure BuiltSite where
  index : IndexPage
  galleries : List (String × List MMap)
  detailPagePaths : List String
  deriving Repr, DecidableEq

/-- `SiteGenerator.build`: load the config (in `__init__`), wipe the output
directory, copy assets (filesystem effects not claimed about), enumerate and
sort all plots (metadata errors propagate), then render the index page, the
gallery pages and the detail pages — each `env.get_template` raises if the
layout file is absent. -/
def build (now : String) (site : Site) (output_dir : String) :
    Except String BuiltSite :=
  match load_config site with
  | .error e => .error e
  | .ok config =>
    match get_all_plots now site with
    | .error e => .error e
    | .ok plots =>
      if "default.html" ∈ site.layouts then
        if "gallery.html" ∈ site.layouts then
          if "plot.html" ∈ site.layouts then
            .ok { index := { siteConfig := config
                             plots := plots.take 12
                             collections := group_by_collection plots }
                  galleries := group_by_collection plots
                  detailPagePaths := plots.map (fun p =>
                    output_dir ++ "/" ++ plot_collection p ++ "/" ++
                    plot_slug p ++ "/index.html") }
          else .error "TemplateNotFound: plot.html"
        else .error "TemplateNotFound: gallery.html"
      else .error "TemplateNotFound: default.html"

/-! ### Concrete sites used to instantiate and refute claims -/
/-- An entry directory with a well-formed front-matter metadata file. -/
def exEntryFM (nm t dt : String) : PlotDir :=
  ⟨nm, [("index.md", "---\ntitle: " ++ t ++ "\ndate: " ++ dt ++ "\n---\n")]⟩

/-- An entry directory with only an image file (auto-generation path). -/
def mkAutoEntry (nm : String) : EntryChild :=
  EntryChild.dirC ⟨nm, [("plot.png", "p")]⟩

/-- The standard three layout files a generated site carries. -/
def exLayouts : List String := ["default.html", "gallery.html", "plot.html"]

/-- A site whose `_config.yml` is absent but which is otherwise complete. -/
def exSiteNoConfig : Site :=
  { configFile := none
    collectionsDir := some [CollectionsChild.dirC
      ⟨"plots", [mkAutoEntry "20250101_000000_e1"]⟩]
    layouts := exLayouts }

/-- A site with one well-formed entry and one entry whose front-matter block
is not parseable YAML. -/
def exSiteBadYaml : Site :=
  { configFile := some "title: My Site"
    collectionsDir := some [CollectionsChild.dirC ⟨"plots",
      [EntryChild.dirC (exEntryFM "good" "G" "2025-01-01"),
       EntryChild.dirC ⟨"bad", [("index.md", "---\nnot a mapping line\n---\nbody")]⟩]⟩]
    layouts := exLayouts }

/-- A site with nine entries in one collection. -/
def exSite9 : Site :=
  { configFile := some "title: My Site"
    collectionsDir := some [CollectionsChild.dirC ⟨"plots",
      [mkAutoEntry "20250101_000001_p", mkAutoEntry "20250101_000002_p",
       mkAutoEntry "20250101_000003_p", mkAutoEntry "20250101_000004_p",
       mkAutoEntry "20250101_000005_p", mkAutoEntry "20250101_000006_p",
       mkAutoEntry "20250101_000007_p", mkAutoEntry "20250101_000008_p",
       mkAutoEntry "20250101_000009_p"]⟩]
    layouts := exLayouts }

/-- A site with three dated entries, two of them sharing a date. -/
def exSiteC7 : Site :=
  { configFile := some "title: My Site"
    collectionsDir := some [CollectionsChild.dirC ⟨"plots",
      [EntryChild.dirC (exEntryFM "a" "A" "2025-01-01"),
       EntryChild.dirC (exEntryFM "b" "B" "2025-03-01"),
       EntryChild.dirC (exEntryFM "c" "C" "2025-01-01")]⟩]
    layouts := exLayouts }

/-- The enumeration (pre-sort) of `exSiteC7`. -/
def exC7gathered : List MMap :=
  [[("title", MVal.str "A"), ("date", MVal.str "2025-01-01"),
    ("content", MVal.str ""), ("collection", MVal.str "plots"),
    ("slug", MVal.str "a")],
   [("title", MVal.str "B"), ("date", MVal.str "2025-03-01"),
    ("content", MVal.str ""), ("collection", MVal.str "plots"),
    ("slug", MVal.str "b")],
   [("title", MVal.str "C"), ("date", MVal.str "2025-01-01"),
    ("content", MVal.str ""), ("collection", MVal.str "plots"),
    ("slug", MVal.str "c")]]

/-- An externally-dropped entry: an image file, no metadata file. -/
def exC8dir : PlotDir := ⟨"20250717_152701_767_Random_Walk", [("plot.png", "img")]⟩

/-- The collection holding `exC8dir`. -/
def exC8coll : Collection := ⟨"experiments", [EntryChild.dirC exC8dir]⟩

/-- A site with a single externally-dropped entry: an image file, no
metadata file. -/
def exSiteC8 : Site :=
  { configFile := some "title: My Site"
    collectionsDir := some [CollectionsChild.dirC exC8coll]
    layouts := exLayouts }

/-- The enumeration (pre-sort) of `exSiteC8`. -/
def exC8gathered : List MMap :=
  [[("title", MVal.str "20250717 152701 767 Random Walk"),
    ("date", MVal.str "2025-07-17T15:27:01"),
    ("plot_image", MVal.str "plot.png"),
    ("code_file", MVal.nullv),
    ("auto_generated", MVal.bool true),
    ("collection", MVal.str "experiments"),
    ("slug", MVal.str "20250717_152701_767_Random_Walk")]]

/-! ## Theorems -/

theorem generate_timestamp_spec {s : TsState} {clock : List String}
    {t : String} {s' : TsState} {rest : List String}
    (h : generate_timestamp s clock = some (t, s', rest)) :
    s' = { globalTs := some t, lastEmitted := some t } ∧ s.lastEmitted ≠ some t := by
  induction clock with
  | nil => simp [generate_timestamp] at h
  | cons c cs ih =>
    by_cases hc : s.lastEmitted = some c
    · rw [generate_timestamp, if_pos hc] at h
      exact ih h
    · rw [generate_timestamp, if_neg hc] at h
      obtain ⟨rfl, rfl, rfl⟩ := by simpa using h
      exact ⟨rfl, hc⟩

theorem get_current_timestamp_cached {s : TsState} {clock : List String} {t : String}
    (h : s.globalTs = some t) : get_current_timestamp s clock = some (t, s, clock) := by
  simp [get_current_timestamp, h]

/-- **C5**: For every sequence of Timestamp Source calls: (1) within one reset
epoch (the cached global token is set), repeated calls to
`get_current_timestamp` return the identical token and leave the state
unchanged, so any number of repeats agree; (2) after `reset_timestamp`, the
next token obtained differs from the last token emitted before the reset;
(3) two consecutively generated tokens are never equal — the generator
retries (skipping clock readings) until a distinct candidate appears. -/
theorem claim_C5_timestamp_tokens (s : TsState) (clock clock2 : List String) :
    (∀ t : String, s.globalTs = some t →
      get_current_timestamp s clock = some (t, s, clock)) ∧
    (∀ (tprev t' : String) (s' : TsState) (rest : List String),
      s.lastEmitted = some tprev →
      get_current_timestamp (reset_timestamp s) clock = some (t', s', rest) →
      t' ≠ tprev) ∧
    (∀ (t t' : String) (s' s'' : TsState) (rest rest2 : List String),
      generate_timestamp s clock = some (t, s', rest) →
      generate_timestamp s' clock2 = some (t', s'', rest2) →
      t' ≠ t) := by
  refine ⟨fun t h => get_current_timestamp_cached h, ?_, ?_⟩
  · intro tprev t' s' rest hprev hgen
    have hg : generate_timestamp (reset_timestamp s) clock = some (t', s', rest) := by
      simpa [get_current_timestamp, reset_timestamp] using hgen
    have := (generate_timestamp_spec hg).2
    simp only [reset_timestamp] at this
    intro hEq
    exact this (hEq ▸ hprev)
  · intro t t' s' s'' rest rest2 h1 h2
    have hs' := (generate_timestamp_spec h1).1
    have hne := (generate_timestamp_spec h2).2
    intro hEq
    apply hne
    rw [hs', hEq]

/-- Witness for C5: concrete run.  State `⟨some "A", some "A"⟩` (token `"A"`
cached and last emitted); repeated reads return `"A"`; after a reset, with the
clock reading `"A"` again first, the generator skips it and emits `"B" ≠ "A"`;
a further generation from the resulting state yields `"C" ≠ "B"`. -/
theorem claim_C5_timestamp_tokens_witness :
    get_current_timestamp ⟨some "A", some "A"⟩ ["A", "B"] =
      some ("A", ⟨some "A", some "A"⟩, ["A", "B"]) ∧
    ("B" : String) ≠ "A" ∧ ("C" : String) ≠ "B" := by
  have h := claim_C5_timestamp_tokens ⟨some "A", some "A"⟩ ["A", "B"] ["B", "C"]
  refine ⟨h.1 "A" rfl, ?_, ?_⟩
  · exact h.2.1 "A" "B" ⟨some "B", some "B"⟩ [] rfl (by decide)
  · exact h.2.2 "B" "C" ⟨some "B", some "B"⟩ ⟨some "C", some "C"⟩ [] []
      (by decide) (by decide)

/-! ### Capture-pipeline theorems -/
theorem string_append_data3 (a b c : String) :
    (a ++ b ++ c).data = a.data ++ b.data ++ c.data := by
  simp [String.data_append]

theorem string_assoc3 (a b c : String) : a ++ b ++ c = a ++ (b ++ c) := by
  apply String.ext
  simp [String.data_append]

/-- **C1**: a capture run through the decorator wrapper returns exactly the
wrapped function's result, whatever the outcome of the documentation steps
4–6 (code write, plot save, HTML write): the wrapper's value is
`Except.ok (some (f x))` for every environment — no exception escapes — and
each failing step leaves a warning in the trace instead. -/
theorem claim_C1_capture_failures_nonfatal {α β : Type} (env : CaptureEnv)
    (ci : CallingInfo) (ts : String) (paths : FilePaths)
    (title author notes : Option String) (f : α → β) (x : α) :
    (snapshot_wrapper String env ci ts paths title author notes f x).1 =
      Except.ok (some (f x)) ∧
    (env.codeWriteOk = false →
      ∃ m, FsOp.warn m ∈ (snapshot_wrapper String env ci ts paths title author notes f x).2) ∧
    (env.hasActiveFigure = true → env.plotSaveOk = false →
      ∃ m, FsOp.warn m ∈ (snapshot_wrapper String env ci ts paths title author notes f x).2) ∧
    (env.htmlWriteOk = false →
      ∃ m, FsOp.warn m ∈ (snapshot_wrapper String env ci ts paths title author notes f x).2) := by
  refine ⟨rfl, ?_, ?_, ?_⟩
  · intro h
    refine ⟨"Failed to save source code: " ++ ("cannot write " ++ paths.code), ?_⟩
    simp [snapshot_wrapper, pyWith, snapshot_exit_fn, catch_warn, create_snapshot,
      save_source_code, h]
  · intro hfig h
    refine ⟨"Failed to save plot to " ++ paths.plot ++ ": backend error", ?_⟩
    simp [snapshot_wrapper, pyWith, snapshot_exit_fn, catch_warn, create_snapshot,
      save_plot, save_current_plot, hfig, h]
  · intro h
    refine ⟨"Failed to create HTML documentation: " ++
      ("Failed to save HTML file to " ++ paths.html), ?_⟩
    simp [snapshot_wrapper, pyWith, snapshot_exit_fn, catch_warn, create_snapshot,
      create_html_documentation, h]

/-- Witness for C1: with every documentation step failing, the wrapper still
returns the function's value `41 + 1` and all three warnings are traced. -/
theorem claim_C1_capture_failures_nonfatal_witness :
    (snapshot_wrapper String ⟨true, false, false, false⟩ ⟨"f", "g.py", "src"⟩
        "t" ⟨"c", "p", "h"⟩ none none none (fun n => n + 1) 41).1 =
      Except.ok (some 42) ∧
    (∃ m, FsOp.warn m ∈ (snapshot_wrapper String ⟨true, false, false, false⟩
        ⟨"f", "g.py", "src"⟩ "t" ⟨"c", "p", "h"⟩ none none none (fun n => n + 1) 41).2) := by
  have h := claim_C1_capture_failures_nonfatal ⟨true, false, false, false⟩
    ⟨"f", "g.py", "src"⟩ "t" ⟨"c", "p", "h"⟩ none none none (fun n => n + 1) 41
  exact ⟨h.1, h.2.1 rfl⟩

/-- **C10**: when the user's own code raises inside the `with` block, the
`SnapshotContext.__exit__` still performs the whole snapshot creation, and
the exception then propagates to the caller unchanged — `__exit__` returns
`None`, so it never suppresses. -/
theorem claim_C10_user_exception_propagates {ε α : Type} (env : CaptureEnv)
    (ci : CallingInfo) (ts : String) (paths : FilePaths)
    (title author notes : Option String) (e : ε) (body : Except ε α)
    (hb : body = .error e) :
    (with_snapshot env ci ts paths title author notes body).1 = .error e ∧
    (with_snapshot env ci ts paths title author notes body).2 =
      create_snapshot env ci ts paths title author notes := by
  subst hb
  constructor
  · simp [with_snapshot, pyWith, snapshot_exit_fn]
  · simp [with_snapshot, pyWith, snapshot_exit_fn, catch_warn]

/-- Witness for C10: a concrete raising body; the error value comes back and
the exit trace contains the code-file write. -/
theorem claim_C10_user_exception_propagates_witness :
    (with_snapshot ⟨false, true, true, true⟩ ⟨"f", "g.py", "src"⟩ "t"
        ⟨"c", "p", "h"⟩ none none none (Except.error "boom" : Except String Nat)).1 =
      Except.error "boom" ∧
    (with_snapshot ⟨false, true, true, true⟩ ⟨"f", "g.py", "src"⟩ "t"
        ⟨"c", "p", "h"⟩ none none none (Except.error "boom" : Except String Nat)).2 =
      create_snapshot ⟨false, true, true, true⟩ ⟨"f", "g.py", "src"⟩ "t"
        ⟨"c", "p", "h"⟩ none none none :=
  claim_C10_user_exception_propagates ⟨false, true, true, true⟩ ⟨"f", "g.py", "src"⟩
    "t" ⟨"c", "p", "h"⟩ none none none "boom" (Except.error "boom") rfl

theorem get_file_paths_code_eq (d f ts : String) :
    (get_file_paths d f ts).code = d ++ "/" ++ (ts ++ "_code.py") := rfl

theorem get_file_paths_plot_eq (d f ts : String) :
    (get_file_paths d f ts).plot = d ++ "/" ++ (ts ++ "_plot.png") := rfl

theorem get_file_paths_html_eq (d f ts : String) :
    (get_file_paths d f ts).html = d ++ "/" ++ (ts ++ "_snapshot.html") := rfl

theorem get_file_paths_plot_ne_code (d f ts : String) :
    (get_file_paths d f ts).plot ≠ (get_file_paths d f ts).code := by
  rw [get_file_paths_plot_eq, get_file_paths_code_eq]
  intro h
  have hl := congrArg (fun s => s.data.length) h
  simp only [String.data_append, List.length_append] at hl
  have e1 : ("_plot.png" : String).data.length = 9 := rfl
  have e2 : ("_code.py" : String).data.length = 8 := rfl
  rw [e1, e2] at hl
  omega

theorem get_file_paths_plot_ne_html (d f ts : String) :
    (get_file_paths d f ts).plot ≠ (get_file_paths d f ts).html := by
  rw [get_file_paths_plot_eq, get_file_paths_html_eq]
  intro h
  have hl := congrArg (fun s => s.data.length) h
  simp only [String.data_append, List.length_append] at hl
  have e1 : ("_plot.png" : String).data.length = 9 := rfl
  have e2 : ("_snapshot.html" : String).data.length = 14 := rfl
  rw [e1, e2] at hl
  omega

theorem os_path_basename_empty : os_path_basename "" = "" := rfl

/-- A rendered page with an empty plot file name contains the explicit
no-plot statement. -/
theorem generate_html_noplot_contains (code : String) (m : HtmlMeta)
    (t a n : Option String) :
    ∃ pre post, (generate_html code "" m t a n).data =
      pre ++ noPlotMessage.data ++ post := by
  refine ⟨(htmlBeforePlotBody
      (pyOrS t ("Snapshot: " ++ m.function_name.getD "Unknown Function"))
      (m.filename.getD "unknown_file.py") (m.function_name.getD "unknown_function")
      (m.date.getD "Unknown Date") a n code ++ noPlotDivOpen).data,
    ("</div>" ++ ("\n" ++ htmlFooter (m.date.getD "Unknown Date"))).data, ?_⟩
  simp [generate_html, htmlPlotBody, String.data_append, List.append_assoc]

/-- **C6**: a capture with no active matplotlib figure produces exactly two
files — the code file and the HTML file — writes nothing at all to the image
path, and the written HTML page contains the literal statement
"No plot was generated for this snapshot." -/
theorem claim_C6_capture_without_figure (base fname ts : String)
    (ci : CallingInfo) (title author notes : Option String) (env : CaptureEnv)
    (hfig : env.hasActiveFigure = false) (hcode : env.codeWriteOk = true)
    (hhtml : env.htmlWriteOk = true) :
    create_snapshot env ci ts (get_file_paths (create_output_directory base fname) fname ts)
        title author notes =
      [FsOp.write (get_file_paths (create_output_directory base fname) fname ts).code
          ci.source_code,
       FsOp.write (get_file_paths (create_output_directory base fname) fname ts).html
          (noFigureHtml ci ts title author notes)] ∧
    (∀ c, FsOp.write (get_file_paths (create_output_directory base fname) fname ts).plot c ∉
      create_snapshot env ci ts (get_file_paths (create_output_directory base fname) fname ts)
        title author notes) ∧
    (∃ pre post, (noFigureHtml ci ts title author notes).data =
      pre ++ noPlotMessage.data ++ post) := by
  have htrace : create_snapshot env ci ts
      (get_file_paths (create_output_directory base fname) fname ts) title author notes =
      [FsOp.write (get_file_paths (create_output_directory base fname) fname ts).code
          ci.source_code,
       FsOp.write (get_file_paths (create_output_directory base fname) fname ts).html
          (noFigureHtml ci ts title author notes)] := by
    simp [create_snapshot, save_source_code, save_plot, create_html_documentation,
      catch_warn, hfig, hcode, hhtml, os_path_basename_empty, noFigureHtml]
  refine ⟨htrace, ?_, generate_html_noplot_contains _ _ _ _ _⟩
  intro c
  rw [htrace]
  simp only [List.mem_cons, List.not_mem_nil, or_false, FsOp.write.injEq, not_or]
  exact ⟨fun h => (get_file_paths_plot_ne_code _ _ _) h.1,
         fun h => (get_file_paths_plot_ne_html _ _ _) h.1⟩

/-- Witness for C6: a concrete figure-less capture writes the code and HTML
files only. -/
theorem claim_C6_capture_without_figure_witness :
    create_snapshot ⟨false, true, true, true⟩ ⟨"main", "demo.py", "src"⟩
        "20240101_000000_000"
        (get_file_paths (create_output_directory "out" "demo.py") "demo.py"
          "20240101_000000_000") none none none =
      [FsOp.write (get_file_paths (create_output_directory "out" "demo.py") "demo.py"
          "20240101_000000_000").code "src",
       FsOp.write (get_file_paths (create_output_directory "out" "demo.py") "demo.py"
          "20240101_000000_000").html
          (noFigureHtml ⟨"main", "demo.py", "src"⟩ "20240101_000000_000" none none none)] :=
  (claim_C6_capture_without_figure "out" "demo.py" "20240101_000000_000"
    ⟨"main", "demo.py", "src"⟩ none none none ⟨false, true, true, true⟩
    rfl rfl rfl).1

/-- **C9**: a capture with an active figure (all writes succeeding) produces
exactly three files, inside the directory `snapshot_<callerFileStem>` under
the output directory, named `<token>_code.py`, `<token>_plot.png` and
`<token>_snapshot.html` — all sharing the token prefix `<token>_`. -/
theorem claim_C9_three_files_shared_token (base fname ts : String)
    (ci : CallingInfo) (title author notes : Option String) (env : CaptureEnv)
    (hfig : env.hasActiveFigure = true) (hcode : env.codeWriteOk = true)
    (hplot : env.plotSaveOk = true) (hhtml : env.htmlWriteOk = true) :
    create_snapshot env ci ts (get_file_paths (create_output_directory base fname) fname ts)
        title author notes =
      [FsOp.write (create_output_directory base fname ++ "/" ++ (ts ++ "_code.py"))
          ci.source_code,
       FsOp.write (create_output_directory base fname ++ "/" ++ (ts ++ "_plot.png"))
          pngBytes,
       FsOp.write (create_output_directory base fname ++ "/" ++ (ts ++ "_snapshot.html"))
          (figureHtml ci ts (get_file_paths (create_output_directory base fname) fname ts)
            title author notes)] ∧
    create_output_directory base fname =
      base ++ "/" ++ ("snapshot_" ++
        (if pyEndsWith fname ".py" then pyDropRight fname 3 else fname)) ∧
    (ts ++ "_code.py" = ts ++ "_" ++ "code.py" ∧
     ts ++ "_plot.png" = ts ++ "_" ++ "plot.png" ∧
     ts ++ "_snapshot.html" = ts ++ "_" ++ "snapshot.html") := by
  refine ⟨?_, rfl, ?_, ?_, ?_⟩
  · simp [create_snapshot, save_source_code, save_plot, create_html_documentation,
      save_current_plot, catch_warn, hfig, hcode, hplot, hhtml, figureHtml,
      get_file_paths_code_eq, get_file_paths_plot_eq, get_file_paths_html_eq]
  · exact (string_assoc3 ts "_" "code.py").symm
  · exact (string_assoc3 ts "_" "plot.png").symm
  · exact (string_assoc3 ts "_" "snapshot.html").symm

/-- Witness for C9: a concrete capture with an active figure writes the
three token-prefixed files into `out/snapshot_demo`. -/
theorem claim_C9_three_files_shared_token_witness :
    create_snapshot ⟨true, true, true, true⟩ ⟨"main", "demo.py", "src"⟩
        "20240101_000000_000"
        (get_file_paths (create_output_directory "out" "demo.py") "demo.py"
          "20240101_000000_000") none none none =
      [FsOp.write (create_output_directory "out" "demo.py" ++ "/" ++
          ("20240101_000000_000" ++ "_code.py")) "src",
       FsOp.write (create_output_directory "out" "demo.py" ++ "/" ++
          ("20240101_000000_000" ++ "_plot.png")) pngBytes,
       FsOp.write (create_output_directory "out" "demo.py" ++ "/" ++
          ("20240101_000000_000" ++ "_snapshot.html"))
          (figureHtml ⟨"main", "demo.py", "src"⟩ "20240101_000000_000"
            (get_file_paths (create_output_directory "out" "demo.py") "demo.py"
              "20240101_000000_000") none none none)] ∧
    create_output_directory "out" "demo.py" = "out" ++ "/" ++ ("snapshot_" ++
      (if pyEndsWith "demo.py" ".py" then pyDropRight "demo.py" 3 else "demo.py")) :=
  ⟨(claim_C9_three_files_shared_token "out" "demo.py" "20240101_000000_000"
      ⟨"main", "demo.py", "src"⟩ none none none ⟨true, true, true, true⟩
      rfl rfl rfl rfl).1,
   (claim_C9_three_files_shared_token "out" "demo.py" "20240101_000000_000"
      ⟨"main", "demo.py", "src"⟩ none none none ⟨true, true, true, true⟩
      rfl rfl rfl rfl).2.1⟩

theorem charListLe_refl (a : List Char) : charListLe a a = true := by
  induction a with
  | nil => rfl
  | cons c cs ih => simp [charListLe, ih]

theorem charListLe_total (a b : List Char) :
    charListLe a b = true ∨ charListLe b a = true := by
  induction a generalizing b with
  | nil => left; rfl
  | cons c cs ih =>
    cases b with
    | nil => right; rfl
    | cons d ds =>
      rcases Nat.lt_trichotomy c.toNat d.toNat with h | h | h
      · left; simp [charListLe, h]
      · rcases ih ds with h2 | h2
        · left; simp [charListLe, h, h2]
        · right; simp [charListLe, h.symm, h2]
      · right; simp [charListLe, h]

theorem charListLe_trans {a b c : List Char} (h1 : charListLe a b = true)
    (h2 : charListLe b c = true) : charListLe a c = true := by
  induction a generalizing b c with
  | nil => rfl
  | cons x xs ih =>
    cases b with
    | nil => simp [charListLe] at h1
    | cons y ys =>
      cases c with
      | nil => simp [charListLe] at h2
      | cons z zs =>
        simp only [charListLe] at h1 h2 ⊢
        by_cases hxy : x.toNat < y.toNat
        · by_cases hyz : y.toNat < z.toNat
          · simp [Nat.lt_trans hxy hyz]
          · by_cases hzy : z.toNat < y.toNat
            · simp [hyz, hzy] at h2
            · have : y.toNat = z.toNat := Nat.le_antisymm (Nat.le_of_not_lt hzy) (Nat.le_of_not_lt hyz)
              simp [this ▸ hxy]
        · by_cases hyx : y.toNat < x.toNat
          · simp [hxy, hyx] at h1
          · have hxyEq : x.toNat = y.toNat := Nat.le_antisymm (Nat.le_of_not_lt hyx) (Nat.le_of_not_lt hxy)
            simp only [hxy, if_false, hyx, if_false] at h1
            by_cases hyz : y.toNat < z.toNat
            · simp [hxyEq ▸ hyz]
            · by_cases hzy : z.toNat < y.toNat
              · simp [hyz, hzy] at h2
              · simp only [hyz, if_false, hzy, if_false] at h2
                have h3 : ¬ x.toNat < z.toNat := by omega
                have h4 : ¬ z.toNat < x.toNat := by omega
                simp [h3, h4, ih h1 h2]

theorem pyStrLe_refl (a : String) : pyStrLe a a = true := charListLe_refl a.data

theorem pyStrLe_total (a b : String) :
    pyStrLe a b = true ∨ pyStrLe b a = true := charListLe_total a.data b.data

theorem pyStrLe_trans {a b c : String} (h1 : pyStrLe a b = true)
    (h2 : pyStrLe b c = true) : pyStrLe a c = true := charListLe_trans h1 h2

theorem mem_insertPlotDesc {x p : MMap} {l : List MMap} :
    p ∈ insertPlotDesc x l ↔ p = x ∨ p ∈ l := by
  induction l with
  | nil => simp [insertPlotDesc]
  | cons y ys ih =>
    by_cases h : pyStrLe (plot_date y) (plot_date x) = true
    · simp [insertPlotDesc, h]
    · simp only [insertPlotDesc, if_neg h, List.mem_cons, ih]
      tauto

theorem mem_sortPlotsByDate {p : MMap} {l : List MMap} :
    p ∈ sortPlotsByDate l ↔ p ∈ l := by
  induction l with
  | nil => simp [sortPlotsByDate]
  | cons x xs ih => simp [sortPlotsByDate, mem_insertPlotDesc, ih]

theorem insertPlotDesc_pairwise {x : MMap} {l : List MMap}
    (h : List.Pairwise (fun a b => pyStrLe (plot_date b) (plot_date a) = true) l) :
    List.Pairwise (fun a b => pyStrLe (plot_date b) (plot_date a) = true)
      (insertPlotDesc x l) := by
  induction l with
  | nil => simp [insertPlotDesc]
  | cons y ys ih =>
    rcases List.pairwise_cons.mp h with ⟨hy, hys⟩
    by_cases hc : pyStrLe (plot_date y) (plot_date x) = true
    · rw [insertPlotDesc, if_pos hc]
      refine List.pairwise_cons.mpr ⟨?_, h⟩
      intro z hz
      rcases List.mem_cons.mp hz with rfl | hz2
      · exact hc
      · exact pyStrLe_trans (hy z hz2) hc
    · rw [insertPlotDesc, if_neg hc]
      refine List.pairwise_cons.mpr ⟨?_, ih hys⟩
      intro z hz
      rcases mem_insertPlotDesc.mp hz with rfl | hz2
      · rcases pyStrLe_total (plot_date y) (plot_date z) with h2 | h2
        · exact absurd h2 hc
        · exact h2
      · exact hy z hz2

theorem sortPlotsByDate_pairwise (l : List MMap) :
    List.Pairwise (fun a b => pyStrLe (plot_date b) (plot_date a) = true)
      (sortPlotsByDate l) := by
  induction l with
  | nil => simp [sortPlotsByDate]
  | cons x xs ih => exact insertPlotDesc_pairwise ih

theorem insertPlotDesc_filter (x : MMap) (l : List MMap) (d : String) :
    (insertPlotDesc x l).filter (fun p => plot_date p == d) =
      if plot_date x == d then x :: l.filter (fun p => plot_date p == d)
      else l.filter (fun p => plot_date p == d) := by
  induction l with
  | nil => by_cases h : plot_date x == d <;> simp [insertPlotDesc, List.filter, h]
  | cons y ys ih =>
    by_cases hc : pyStrLe (plot_date y) (plot_date x) = true
    · by_cases h : plot_date x == d <;>
        simp [insertPlotDesc, hc, List.filter_cons, h]
    · rw [insertPlotDesc, if_neg hc]
      by_cases h : plot_date x == d
      · have hxd : plot_date x = d := by simpa using h
        have hyd : ¬ (plot_date y == d) = true := by
          intro hyd
          have heq : plot_date y = d := by simpa using hyd
          have : pyStrLe (plot_date y) (plot_date x) = true := by
            rw [hxd, ← heq]; exact pyStrLe_refl _
          exact hc this
        simp [List.filter_cons, hyd, ih, h]
      · by_cases hyd : (plot_date y == d) = true <;>
          simp [List.filter_cons, hyd, ih, h]

theorem sortPlotsByDate_filter (l : List MMap) (d : String) :
    (sortPlotsByDate l).filter (fun p => plot_date p == d) =
      l.filter (fun p => plot_date p == d) := by
  induction l with
  | nil => rfl
  | cons x xs ih =>
    rw [sortPlotsByDate, insertPlotDesc_filter]
    by_cases h : plot_date x == d <;> simp [List.filter_cons, h, ih]

theorem lookupGroup_assocAppend (acc : List (String × List MMap))
    (c c' : String) (p : MMap) :
    lookupGroup (assocAppend acc c' p) c =
      lookupGroup acc c ++ (if c' = c then [p] else []) := by
  induction acc with
  | nil =>
    by_cases h : c' = c
    · simp [assocAppend, lookupGroup, h]
    · simp only [assocAppend, lookupGroup, List.find?]
      have : ¬ (c' = c) := h
      simp [this, h]
  | cons kv rest ih =>
    obtain ⟨k, v⟩ := kv
    by_cases hk : k = c'
    · subst hk
      by_cases h : k = c
      · simp [assocAppend, lookupGroup, List.find?, h]
      · simp [assocAppend, lookupGroup, List.find?, h]
    · rw [assocAppend, if_neg hk]
      by_cases h : k = c
      · subst h
        have hne : ¬ (c' = k) := fun hh => hk hh.symm
        simp [lookupGroup, List.find?, hne, if_neg hne]
      · simp only [lookupGroup, List.find?] at ih ⊢
        simp [h, ih, lookupGroup]

theorem lookupGroup_group_aux (ps : List MMap)
    (acc : List (String × List MMap)) (c : String) :
    lookupGroup (ps.foldl (fun a p => assocAppend a (plot_collection p) p) acc) c =
      lookupGroup acc c ++ ps.filter (fun p => plot_collection p == c) := by
  induction ps generalizing acc with
  | nil => simp
  | cons p ps ih =>
    rw [List.foldl_cons, ih, lookupGroup_assocAppend, List.filter_cons]
    by_cases h : plot_collection p = c
    · simp [h, List.append_assoc]
    · have hb : ¬ ((plot_collection p == c) = true) := by simpa using h
      simp [h, hb]

/-- The gallery page of collection `c` lists exactly the plots of `c`, in
sorted order. -/
theorem lookupGroup_group_by_collection (plots : List MMap) (c : String) :
    lookupGroup (group_by_collection plots) c =
      plots.filter (fun p => plot_collection p == c) := by
  have h := lookupGroup_group_aux plots [] c
  simpa [group_by_collection, lookupGroup] using h

/-! ### Site-builder lemmas -/
theorem length_insertPlotDesc (x : MMap) (l : List MMap) :
    (insertPlotDesc x l).length = l.length + 1 := by
  induction l with
  | nil => rfl
  | cons y ys ih =>
    by_cases h : pyStrLe (plot_date y) (plot_date x) = true <;>
      simp [insertPlotDesc, h, ih]

theorem length_sortPlotsByDate (l : List MMap) :
    (sortPlotsByDate l).length = l.length := by
  induction l with
  | nil => rfl
  | cons x xs ih => simp [sortPlotsByDate, length_insertPlotDesc, ih]

theorem collectM_skip {α β : Type} (f : α → Except String (List β)) (b : α)
    (hb : f b = .ok []) (xs ys : List α) :
    collectM f (xs ++ b :: ys) = collectM f (xs ++ ys) := by
  induction xs with
  | nil =>
    simp only [List.nil_append, collectM, hb]
    cases collectM f ys <;> simp
  | cons a as ih =>
    simp only [List.cons_append, collectM, List.append_eq, ih]

theorem collectM_ok_of_mem {α β : Type} {f : α → Except String (List β)}
    {xs : List α} {l : List β} {x : α}
    (h : collectM f xs = .ok l) (hx : x ∈ xs) :
    ∃ lx, f x = .ok lx ∧ ∀ a ∈ lx, a ∈ l := by
  induction xs generalizing l with
  | nil => cases hx
  | cons y ys ih =>
    rw [collectM] at h
    cases hfy : f y with
    | error e => rw [hfy] at h; cases h
    | ok ly =>
      rw [hfy] at h
      cases hys : collectM f ys with
      | error e => rw [hys] at h; cases h
      | ok lys =>
        rw [hys] at h
        injection h with h
        subst h
        rcases List.mem_cons.mp hx with rfl | hx2
        · exact ⟨ly, hfy, fun a ha => List.mem_append_left _ ha⟩
        · rcases ih hys hx2 with ⟨lx, hfx, hsub⟩
          exact ⟨lx, hfx, fun a ha => List.mem_append_right _ (hsub a ha)⟩

theorem mmapGet_mmapSet_self (m : MMap) (k : String) (v : MVal) :
    mmapGet (mmapSet m k v) k = some v := by
  induction m with
  | nil => simp [mmapSet, mmapGet, List.find?]
  | cons kv rest ih =>
    obtain ⟨k', v'⟩ := kv
    by_cases h : k' = k
    · simp [mmapSet, h, mmapGet, List.find?]
    · simp only [mmapSet, if_neg h, mmapGet, List.find?] at ih ⊢
      simp [h, ih]

theorem mmapGet_mmapSet_ne (m : MMap) (k k' : String) (v : MVal) (h : k' ≠ k) :
    mmapGet (mmapSet m k' v) k = mmapGet m k := by
  induction m with
  | nil => simp [mmapSet, mmapGet, List.find?, h]
  | cons kv rest ih =>
    obtain ⟨k0, v0⟩ := kv
    by_cases h0 : k0 = k'
    · subst h0
      simp [mmapSet, mmapGet, List.find?, h]
    · simp only [mmapSet, if_neg h0, mmapGet, List.find?] at ih ⊢
      by_cases hk : k0 = k
      · simp [hk]
      · simp [hk, ih]

/-! ### Site-builder claim theorems -/
/-- **C7**: the Site Builder's enumeration (`get_all_plots`) returns the
loaded entries sorted by creation date descending (every later entry's date
is `<=` every earlier one's, as Python compares the strings), and the sort is
stable: for every date value, the entries carrying it appear in their
original enumeration order. -/
theorem claim_C7_enumeration_sorted_stable (now : String) (site : Site)
    (l : List MMap) (h : gather_plots now site = .ok l) :
    get_all_plots now site = .ok (sortPlotsByDate l) ∧
    List.Pairwise (fun a b => pyStrLe (plot_date b) (plot_date a) = true)
      (sortPlotsByDate l) ∧
    ∀ d, (sortPlotsByDate l).filter (fun p => plot_date p == d) =
      l.filter (fun p => plot_date p == d) :=
  ⟨by simp [get_all_plots, h], sortPlotsByDate_pairwise l,
    fun d => sortPlotsByDate_filter l d⟩

/-- Witness for C7: on a concrete site with entries `a`, `b`, `c` where `a`
and `c` share a date and `b` is newer, the enumeration returns `b, a, c`
(newest first, the tied pair in enumeration order). -/
theorem claim_C7_enumeration_sorted_stable_witness :
    get_all_plots "2025-06-30" exSiteC7 = .ok (sortPlotsByDate exC7gathered) ∧
    (sortPlotsByDate exC7gathered).map plot_slug = ["b", "a", "c"] :=
  ⟨(claim_C7_enumeration_sorted_stable "2025-06-30" exSiteC7 exC7gathered rfl).1,
   rfl⟩

/-- **C2 counterexample**: for the concrete site `exSiteNoConfig`, whose
`_config.yml` is absent, `_load_config` silently returns the empty dict and
`build` completes successfully with that defaulted configuration — no
explicit failure is reported, refuting the claim. -/
theorem claim_C2_counterexample :
    load_config exSiteNoConfig = .ok [] ∧
    (build "2025-06-30T00:00:00" exSiteNoConfig "docs").map
      (fun bs => bs.index.siteConfig) = .ok [] :=
  ⟨rfl, rfl⟩

/-- **C2 amended**: when the site root has no `_config.yml`,
`SiteGenerator._load_config` silently defaults to the empty configuration
and `build` proceeds to a successful build with it (given loadable entries
and present layout templates); the absence is not reported to the caller. -/
theorem claim_C2_missing_config_silently_defaults (now out : String)
    (site : Site) (l : List MMap) (hc : site.configFile = none)
    (hg : gather_plots now site = .ok l)
    (h1 : "default.html" ∈ site.layouts) (h2 : "gallery.html" ∈ site.layouts)
    (h3 : "plot.html" ∈ site.layouts) :
    load_config site = .ok [] ∧
    build now site out = .ok
      { index := { siteConfig := []
                   plots := (sortPlotsByDate l).take 12
                   collections := group_by_collection (sortPlotsByDate l) }
        galleries := group_by_collection (sortPlotsByDate l)
        detailPagePaths := (sortPlotsByDate l).map (fun p =>
          out ++ "/" ++ plot_collection p ++ "/" ++ plot_slug p ++ "/index.html") } := by
  have hl : load_config site = .ok [] := by simp [load_config, hc]
  exact ⟨hl, by simp [build, hl, get_all_plots, hg, h1, h2, h3]⟩

/-- The enumeration (pre-sort) of `exSiteNoConfig`. -/
theorem exSiteNoConfig_gathered :
    gather_plots "2025-06-30T00:00:00" exSiteNoConfig = .ok
      [[("title", MVal.str "20250101 000000 E1"),
        ("date", MVal.str "2025-01-01T00:00:00"),
        ("plot_image", MVal.str "plot.png"), ("code_file", MVal.nullv),
        ("auto_generated", MVal.bool true), ("collection", MVal.str "plots"),
        ("slug", MVal.str "20250101_000000_e1")]] := rfl

/-- Witness for the amended C2: the concrete config-less site builds
successfully with the empty configuration. -/
theorem claim_C2_missing_config_silently_defaults_witness :
    load_config exSiteNoConfig = .ok [] ∧
    build "2025-06-30T00:00:00" exSiteNoConfig "docs" = .ok
      { index := { siteConfig := []
                   plots := (sortPlotsByDate
                     [[("title", MVal.str "20250101 000000 E1"),
                       ("date", MVal.str "2025-01-01T00:00:00"),
                       ("plot_image", MVal.str "plot.png"), ("code_file", MVal.nullv),
                       ("auto_generated", MVal.bool true),
                       ("collection", MVal.str "plots"),
                       ("slug", MVal.str "20250101_000000_e1")]]).take 12
                   collections := group_by_collection (sortPlotsByDate
                     [[("title", MVal.str "20250101 000000 E1"),
                       ("date", MVal.str "2025-01-01T00:00:00"),
                       ("plot_image", MVal.str "plot.png"), ("code_file", MVal.nullv),
                       ("auto_generated", MVal.bool true),
                       ("collection", MVal.str "plots"),
                       ("slug", MVal.str "20250101_000000_e1")]]) }
        galleries := group_by_collection (sortPlotsByDate
          [[("title", MVal.str "20250101 000000 E1"),
            ("date", MVal.str "2025-01-01T00:00:00"),
            ("plot_image", MVal.str "plot.png"), ("code_file", MVal.nullv),
            ("auto_generated", MVal.bool true), ("collection", MVal.str "plots"),
            ("slug", MVal.str "20250101_000000_e1")]])
        detailPagePaths := (sortPlotsByDate
          [[("title", MVal.str "20250101 000000 E1"),
            ("date", MVal.str "2025-01-01T00:00:00"),
            ("plot_image", MVal.str "plot.png"), ("code_file", MVal.nullv),
            ("auto_generated", MVal.bool true), ("collection", MVal.str "plots"),
            ("slug", MVal.str "20250101_000000_e1")]]).map (fun p =>
          "docs" ++ "/" ++ plot_collection p ++ "/" ++ plot_slug p ++ "/index.html") } :=
  claim_C2_missing_config_silently_defaults "2025-06-30T00:00:00" "docs"
    exSiteNoConfig _ rfl exSiteNoConfig_gathered (by decide) (by decide) (by decide)

/-- **C3 counterexample**: for the concrete site `exSiteBadYaml` — one
well-formed entry followed by one whose front-matter block is not parseable
YAML — `build` aborts with the parse error instead of skipping the entry and
processing the rest, refuting the claim. -/
theorem claim_C3_counterexample :
    build "2025-06-30T00:00:00" exSiteBadYaml "docs" =
      .error "could not parse yaml line: not a mapping line" := rfl

/-- **C3 amended**: an entry whose metadata file is malformed at the
delimiter level (its text does not start with `---`, or it has fewer than
three `---`-separated parts) loads as `None`, is skipped, and every other
entry is still processed; an entry whose delimited front-matter block is
unparseable YAML instead raises and aborts the whole build (see the
counterexample). -/
theorem claim_C3_delimiter_malformed_skipped (now cname nm content : String)
    (xs ys : List EntryChild) (d : PlotDir)
    (hfile : d.files.find? (fun f => f.1 = "index.md") = some (nm, content))
    (hmal : pyStartsWith content "---" = false ∨
      (pySplit3 content "---").length < 3) :
    load_plot_metadata now d = .ok none ∧
    collectM (gather_entry now cname) (xs ++ EntryChild.dirC d :: ys) =
      collectM (gather_entry now cname) (xs ++ ys) := by
  have hload : load_plot_metadata now d = .ok none := by
    rcases hmal with h | h
    · simp [load_plot_metadata, hfile, h]
    · by_cases hs : pyStartsWith content "---"
      · have h3 : ¬ (3 ≤ (pySplit3 content "---").length) := by omega
        simp [load_plot_metadata, hfile, hs, h3]
      · simp [load_plot_metadata, hfile, hs]
  have hentry : gather_entry now cname (EntryChild.dirC d) = .ok [] := by
    by_cases hn : pyStartsWith d.name "_"
    · simp [gather_entry, hn]
    · simp [gather_entry, hn, hload]
  exact ⟨hload, collectM_skip _ _ hentry xs ys⟩

/-- Witness for the amended C3: a concrete delimiter-malformed entry is
skipped and the surrounding enumeration is unchanged. -/
theorem claim_C3_delimiter_malformed_skipped_witness :
    load_plot_metadata "2025-06-30" ⟨"bad2", [("index.md", "no front matter")]⟩ =
      .ok none ∧
    collectM (gather_entry "2025-06-30" "plots")
        ([EntryChild.dirC (exEntryFM "good" "G" "2025-01-01")] ++
          EntryChild.dirC ⟨"bad2", [("index.md", "no front matter")]⟩ :: []) =
      collectM (gather_entry "2025-06-30" "plots")
        ([EntryChild.dirC (exEntryFM "good" "G" "2025-01-01")] ++ []) :=
  claim_C3_delimiter_malformed_skipped "2025-06-30" "plots" "index.md"
    "no front matter" [EntryChild.dirC (exEntryFM "good" "G" "2025-01-01")] []
    ⟨"bad2", [("index.md", "no front matter")]⟩ rfl (Or.inl rfl)

/-- **C4 counterexample**: for the concrete site `exSite9` with `N = 9` total
entries, the built index page lists 9 entries, not `min 8 9 = 8`, refuting
the claim (`_build_index` passes `plots[:12]`, not `plots[:8]`). -/
theorem claim_C4_counterexample :
    (build "2025-06-30T00:00:00" exSite9 "docs").map
      (fun bs => bs.index.plots.length) = .ok 9 ∧
    min 8 9 = 8 ∧ (9 : Nat) ≠ 8 :=
  ⟨rfl, rfl, by decide⟩

/-- **C4 amended**: for every site with `N` total loaded entries, the built
index page lists exactly the `min 12 N` latest entries — the prefix of
length 12 of the date-descending enumeration. -/
theorem claim_C4_index_lists_min12 (now out : String) (site : Site)
    (cfg : MMap) (l : List MMap)
    (hc : load_config site = .ok cfg) (hg : gather_plots now site = .ok l)
    (h1 : "default.html" ∈ site.layouts) (h2 : "gallery.html" ∈ site.layouts)
    (h3 : "plot.html" ∈ site.layouts) :
    (build now site out).map (fun bs => bs.index.plots) =
      .ok ((sortPlotsByDate l).take 12) ∧
    (build now site out).map (fun bs => bs.index.plots.length) =
      .ok (min 12 l.length) := by
  constructor <;>
    simp [build, hc, get_all_plots, hg, h1, h2, h3, Except.map,
      List.length_take, length_sortPlotsByDate]

/-- Witness for the amended C4: the three-entry site's index lists
`min 12 3 = 3` entries. -/
theorem claim_C4_index_lists_min12_witness :
    (build "2025-06-30" exSiteC7 "docs").map (fun bs => bs.index.plots) =
      .ok ((sortPlotsByDate exC7gathered).take 12) ∧
    (build "2025-06-30" exSiteC7 "docs").map (fun bs => bs.index.plots.length) =
      .ok (min 12 exC7gathered.length) :=
  claim_C4_index_lists_min12 "2025-06-30" "docs" exSiteC7
    [("title", MVal.str "My Site")] exC7gathered rfl rfl
    (by decide) (by decide) (by decide)

/-- **C8**: an entry directory holding a recognizable image file but no
metadata file still enters the enumeration and the built gallery of its
collection, with the auto-derived title `str.title()` of the directory name
with underscores turned to spaces, and the date parsed from the directory
name's token prefix. -/
theorem claim_C8_auto_metadata_entry (now : String) (site : Site)
    (cs : List CollectionsChild) (c : Collection) (d : PlotDir)
    (dt : DateTimeV) (p0 p1 : String) (rest : List String) (l : List MMap)
    (hcs : site.collectionsDir = some cs)
    (hcmem : CollectionsChild.dirC c ∈ cs)
    (hdmem : EntryChild.dirC d ∈ c.children)
    (hname : pyStartsWith d.name "_" = false)
    (hnometa : d.files.find? (fun f => f.1 = "index.md") = none)
    (himg : plotFilesOf d ≠ [])
    (hsplit : pySplitAll d.name "_" = p0 :: p1 :: rest)
    (hdt : strptime_Ymd_HMS p0 p1 = some dt)
    (hgather : gather_plots now site = .ok l) :
    get_all_plots now site = .ok (sortPlotsByDate l) ∧
    ∃ p, p ∈ sortPlotsByDate l ∧
      mmapGet p "slug" = some (MVal.str d.name) ∧
      mmapGet p "title" = some (MVal.str (pyTitle (pyReplace d.name "_" " "))) ∧
      mmapGet p "date" = some (MVal.str (isoFormat dt)) ∧
      p ∈ lookupGroup (group_by_collection (sortPlotsByDate l)) c.name := by
  have hauto : auto_generate_metadata now d = some
      [("title", MVal.str (pyTitle (pyReplace d.name "_" " "))),
       ("date", MVal.str (isoFormat dt)),
       ("plot_image", MVal.str (((plotFilesOf d).headD ("", "")).1)),
       ("code_file", match (codeFilesOf d).head? with
         | some cf => MVal.str cf.1
         | none => MVal.nullv),
       ("auto_generated", MVal.bool true)] := by
    rw [auto_generate_metadata, if_neg himg]
    simp [hsplit, hdt]
  have hload : load_plot_metadata now d = .ok (some
      [("title", MVal.str (pyTitle (pyReplace d.name "_" " "))),
       ("date", MVal.str (isoFormat dt)),
       ("plot_image", MVal.str (((plotFilesOf d).headD ("", "")).1)),
       ("code_file", match (codeFilesOf d).head? with
         | some cf => MVal.str cf.1
         | none => MVal.nullv),
       ("auto_generated", MVal.bool true)]) := by
    simp [load_plot_metadata, hnometa, hauto]
  have hentry : gather_entry now c.name (EntryChild.dirC d) = .ok
      [mmapSet (mmapSet
        [("title", MVal.str (pyTitle (pyReplace d.name "_" " "))),
         ("date", MVal.str (isoFormat dt)),
         ("plot_image", MVal.str (((plotFilesOf d).headD ("", "")).1)),
         ("code_file", match (codeFilesOf d).head? with
           | some cf => MVal.str cf.1
           | none => MVal.nullv),
         ("auto_generated", MVal.bool true)]
        "collection" (MVal.str c.name)) "slug" (MVal.str d.name)] := by
    simp [gather_entry, hname, hload]
  rw [gather_plots, hcs] at hgather
  obtain ⟨lc, hgc, hsub⟩ := collectM_ok_of_mem hgather hcmem
  simp only [gather_collection] at hgc
  obtain ⟨le, hge, hsub2⟩ := collectM_ok_of_mem hgc hdmem
  rw [hentry] at hge
  injection hge with hge
  subst hge
  have hPl : mmapSet (mmapSet
      [("title", MVal.str (pyTitle (pyReplace d.name "_" " "))),
       ("date", MVal.str (isoFormat dt)),
       ("plot_image", MVal.str (((plotFilesOf d).headD ("", "")).1)),
       ("code_file", match (codeFilesOf d).head? with
         | some cf => MVal.str cf.1
         | none => MVal.nullv),
       ("auto_generated", MVal.bool true)]
      "collection" (MVal.str c.name)) "slug" (MVal.str d.name) ∈ l :=
    hsub _ (hsub2 _ (by simp))
  have hcget : mmapGet (mmapSet (mmapSet
      [("title", MVal.str (pyTitle (pyReplace d.name "_" " "))),
       ("date", MVal.str (isoFormat dt)),
       ("plot_image", MVal.str (((plotFilesOf d).headD ("", "")).1)),
       ("code_file", match (codeFilesOf d).head? with
         | some cf => MVal.str cf.1
         | none => MVal.nullv),
       ("auto_generated", MVal.bool true)]
      "collection" (MVal.str c.name)) "slug" (MVal.str d.name)) "collection" =
      some (MVal.str c.name) := by
    rw [mmapGet_mmapSet_ne _ _ _ _ (by decide)]
    exact mmapGet_mmapSet_self _ _ _
  refine ⟨by rw [get_all_plots, gather_plots, hcs, hgather],
    _, mem_sortPlotsByDate.mpr hPl, mmapGet_mmapSet_self _ _ _, ?_, ?_, ?_⟩
  · rw [mmapGet_mmapSet_ne _ _ _ _ (by decide),
      mmapGet_mmapSet_ne _ _ _ _ (by decide)]
    rfl
  · rw [mmapGet_mmapSet_ne _ _ _ _ (by decide),
      mmapGet_mmapSet_ne _ _ _ _ (by decide)]
    rfl
  · rw [lookupGroup_group_by_collection]
    refine List.mem_filter.mpr ⟨mem_sortPlotsByDate.mpr hPl, ?_⟩
    simp only [plot_collection]
    rw [hcget]
    simp

/-- Witness for C8: the externally-dropped `20250717_152701_767_Random_Walk`
directory appears in the enumeration of `exSiteC8` with title
"20250717 152701 767 Random Walk" and date 2025-07-17T15:27:01. -/
theorem claim_C8_auto_metadata_entry_witness :
    get_all_plots "2025-06-30" exSiteC8 = .ok (sortPlotsByDate exC8gathered) ∧
    ∃ p, p ∈ sortPlotsByDate exC8gathered ∧
      mmapGet p "slug" = some (MVal.str "20250717_152701_767_Random_Walk") ∧
      mmapGet p "title" = some (MVal.str (pyTitle
        (pyReplace "20250717_152701_767_Random_Walk" "_" " "))) ∧
      mmapGet p "date" = some (MVal.str (isoFormat ⟨2025, 7, 17, 15, 27, 1⟩)) ∧
      p ∈ lookupGroup (group_by_collection (sortPlotsByDate exC8gathered))
        "experiments" :=
  claim_C8_auto_metadata_entry "2025-06-30" exSiteC8
    [CollectionsChild.dirC exC8coll] exC8coll exC8dir ⟨2025, 7, 17, 15, 27, 1⟩
    "20250717" "152701" ["767", "Random", "Walk"] exC8gathered
    rfl (by simp) (by simp [exC8coll]) rfl rfl (by decide) rfl rfl rfl

end Snapshotplot
